import Mathlib

/-!
Verification development for the telegram-translator MTProto service.

The definitions below are a shallow embedding of the TypeScript sources:
- `src/telegram/infra/helper.ts` (TelegramAppService: ingestion pipeline,
  idempotency store, fetchHistory, health proxy, toIsoFromTelegramDate)
- `src/telegram/infra/telegram-client.service.ts` (TelegramClientService:
  joinAndResolve, leave, health, listener registry)

JS numbers carrying protocol integers are modelled as `Int`; JS `Date`
values as integer milliseconds since the Unix epoch; absent (`undefined`)
fields as `Option`; thrown errors as `Except`.
-/

namespace TgSpec

/-- Left-pad the decimal rendering of `n` with zeros to width `w`
(the padding JS `Date.prototype.toISOString` applies to each field). -/
def zeroPad (w : Nat) (n : Nat) : String :=
  let s := toString n
  String.mk (List.replicate (w - s.length) '0') ++ s

/-- Proleptic-Gregorian civil date from a count of days since 1970-01-01
(the calendar arithmetic inside JS `Date`): returns `(year, month, day)`. -/
def civilFromDays (z0 : Int) : Int × Nat × Nat :=
  let z := z0 + 719468
  let era := z.ediv 146097
  let doe := (z.emod 146097).toNat
  let yoe := (doe - doe / 1460 + doe / 36524 - doe / 146096) / 365
  let y := era * 400 + yoe
  let doy := doe - (365 * yoe + yoe / 4 - yoe / 100)
  let mp := (5 * doy + 2) / 153
  let d := doy - (153 * mp + 2) / 5 + 1
  let m := if mp < 10 then mp + 3 else mp - 9
  (y + (if m ≤ 2 then 1 else 0), m, d)

/-- Render a year the way JS `toISOString` does: four zero-padded digits
for years 0–9999, otherwise a sign and six digits (expanded years). -/
def yearStr (y : Int) : String :=
  if y < 0 then "-" ++ zeroPad 6 (-y).toNat
  else if y ≤ 9999 then zeroPad 4 y.toNat
  else "+" ++ zeroPad 6 y.toNat

/-- JS `new Date(ms).toISOString()` on an integer count of milliseconds
since the Unix epoch: `YYYY-MM-DDTHH:mm:ss.sssZ`. -/
def toISOString (ms : Int) : String :=
  let days := ms.ediv 86400000
  let msod := (ms.emod 86400000).toNat
  let c := civilFromDays days
  let hh := msod / 3600000
  let mi := msod / 60000 % 60
  let ss := msod / 1000 % 60
  yearStr c.1 ++ "-" ++ zeroPad 2 c.2.1 ++ "-" ++ zeroPad 2 c.2.2 ++ "T" ++
    zeroPad 2 hh ++ ":" ++ zeroPad 2 mi ++ ":" ++ zeroPad 2 ss ++
    "." ++ zeroPad 3 (msod % 1000) ++ "Z"

/-- The `number | Date | undefined` union that `toIsoFromTelegramDate`
accepts: integer unix seconds, a structured `Date` (integer unix
milliseconds), or absent. -/
inductive TgDate where
  | num (seconds : Int)
  | dateObj (ms : Int)
  | absent
  deriving DecidableEq, Repr

/-- The `toIsoFromTelegramDate` from `helper.ts` lines 70–74: unix seconds are
scaled to milliseconds, a `Date` is printed directly, and `undefined`
falls back to `new Date(0)`. -/
def toIsoFromTelegramDate : TgDate → String
  | .num d => toISOString (d * 1000)
  | .dateObj ms => toISOString ms
  | .absent => toISOString 0

/-- The `Api.PeerChannel | Api.PeerChat | Api.PeerUser` union carried by
`msg.peerId`, plus an unrecognized-kind case (an object none of the three
`in`-checks of `handleNewMessage` matches). -/
inductive PeerRef where
  | channel (channelId : Int)
  | chat (chatId : Int)
  | user (userId : Int)
  | unknownKind
  deriving DecidableEq, Repr

/-- The `channelId` derivation of `TelegramAppService.handleNewMessage`
(`helper.ts` lines 127–136): raw id for a channel peer, `chat:<id>`,
`user:<id>`, and the `'unknown'` default otherwise. -/
def resolvePeerId : Option PeerRef → String
  | some (.channel i) => toString i
  | some (.chat i) => "chat:" ++ toString i
  | some (.user i) => "user:" ++ toString i
  | some .unknownKind => "unknown"
  | none => "unknown"

-- ---- Ingestion pipeline (TelegramAppService.handleNewMessage) ------------

/-- The fields of `ev.message` that `handleNewMessage` reads; `id` and
`message` may be absent (`?? -1` / `?? ''` defaults apply). -/
structure RawEvent where
  peerId : Option PeerRef
  id : Option Int
  message : Option String
  date : TgDate
  deriving DecidableEq, Repr

/-- The `NewPostEventPayload` from `helper.ts`: the canonical event published
on `telegram.post.created`. -/
structure NewPostEventPayload where
  channelId : String
  messageId : Int
  text : String
  date : String
  deriving DecidableEq, Repr

/-- State of `TelegramAppService`: the `InMemoryProcessedMessagesRepo`'s
`Set<string>` of seen dedup keys, plus the trace of payloads handed to
`EventsPublisher.emitNewPost`. -/
structure AppState where
  seen : List String
  published : List NewPostEventPayload
  deriving DecidableEq, Repr

/-- The `Set.prototype.add`: a no-op when the key is already present. -/
def setAdd (key : String) (s : List String) : List String :=
  if key ∈ s then s else key :: s

/-- The normalization performed by the four `const` lines of
`handleNewMessage` (`helper.ts` lines 127–140): peer resolution plus the
`?? -1`, `?? ''` and date defaults. -/
def normalizeEvent (ev : RawEvent) : NewPostEventPayload :=
  ⟨resolvePeerId ev.peerId, ev.id.getD (-1), ev.message.getD "",
   toIsoFromTelegramDate ev.date⟩

/-- The dedup key `` `${channelId}:${messageId}` `` computed by
`handleNewMessage` for a raw event. -/
def dedupKey (ev : RawEvent) : String :=
  resolvePeerId ev.peerId ++ ":" ++ toString (ev.id.getD (-1))

/-- The `TelegramAppService.handleNewMessage` (`helper.ts` lines 123–154):
normalize the event, check `wasProcessed`, and either drop it or publish
and `markProcessed`. -/
def handleNewMessage (st : AppState) (ev : RawEvent) : AppState :=
  let payload := normalizeEvent ev
  let key := payload.channelId ++ ":" ++ toString payload.messageId
  if key ∈ st.seen then st
  else
    { seen := setAdd key st.seen,
      published := st.published ++ [payload] }

/-- Feed a sequence of inbound raw events through the ingestion pipeline. -/
def runPipeline (st : AppState) (evs : List RawEvent) : AppState :=
  evs.foldl handleNewMessage st

/-- The service's initial state: empty dedup store, nothing published. -/
def initState : AppState := ⟨[], []⟩

/-- The dedup key a published payload corresponds to. -/
def payloadKey (p : NewPostEventPayload) : String :=
  p.channelId ++ ":" ++ toString p.messageId

/-- How many published payloads carry the dedup key `k`. -/
def keyCount (k : String) (l : List NewPostEventPayload) : Nat :=
  l.countP (fun p => payloadKey p == k)

-- ---- Entities and errors (TelegramClientService) -------------------------

/-- The entity kinds `joinAndResolve`/`leave` discriminate among:
`Api.Channel`, `Api.Chat`, `Api.User`, `Api.ChannelForbidden`, and any
other class (hitting the `Unsupported peer type` throw). -/
inductive Entity where
  | channel (id : Int) (username : Option String) (title : String)
      (megagroup : Bool)
  | chat (id : Int) (title : Option String)
  | user (id : Int) (username : Option String)
      (firstName lastName : Option String)
  | channelForbidden (id : Int) (title : Option String)
  | otherEntity (className : String)
  deriving DecidableEq, Repr

/-- Errors surfaced by the client layer: GramJS `RPCError` (carrying its
`errorMessage` code) versus any other thrown value. -/
inductive TgError where
  | rpc (code : String)
  | generic (msg : String)
  deriving DecidableEq, Repr

/-- Does `needle` occur as a contiguous run inside `hay`? -/
def listHasRun (needle : List Char) : List Char → Bool
  | [] => needle.isEmpty
  | c :: rest => needle.isPrefixOf (c :: rest) || listHasRun needle rest

/-- JS `String.prototype.includes`: substring containment. -/
def strIncludes (hay needle : String) : Bool :=
  listHasRun needle.toList hay.toList

/-- The `kind` union of `UnsubscribeRpcResponse`
(`types-to-synchronize.ts`). -/
inductive LeaveKind where
  | channel
  | megagroup
  | chat
  | user
  deriving DecidableEq, Repr

/-- The `UnsubscribeRpcResponse` from `types-to-synchronize.ts`. -/
structure UnsubscribeRpcResponse where
  left : Bool
  kind : LeaveKind
  deriving DecidableEq, Repr

/-- The absorbed-error test in `leave`'s catch block: the `RPCError` code
contains one of the five already-gone conditions. -/
def isAlreadyGoneCode (code : String) : Bool :=
  strIncludes code "USER_NOT_PARTICIPANT" ||
  strIncludes code "CHANNEL_PRIVATE" ||
  strIncludes code "CHAT_ID_INVALID" ||
  strIncludes code "CHANNEL_INVALID" ||
  strIncludes code "PEER_ID_INVALID"

/-- Entity kinds that `leave` has a leave action for (everything except
the `Unsupported peer type` fall-through). -/
def isRecognizedEntity : Entity → Bool
  | .otherEntity _ => false
  | _ => true

/-- The five already-gone error conditions listed in `leave`'s catch. -/
def alreadyGoneCodes : List String :=
  ["USER_NOT_PARTICIPANT", "CHANNEL_PRIVATE", "CHAT_ID_INVALID",
   "CHANNEL_INVALID", "PEER_ID_INVALID"]

/-- The try block of `TelegramClientService.leave` (lines 162–206):
dispatch the kind-appropriate leave action and build the success result;
`actionOutcome` is what the network invoke returns when it is reached.
An unrecognized entity throws a plain `Error` (not an `RPCError`). -/
def leaveTry (entity : Entity) (actionOutcome : Except TgError Unit) :
    Except TgError UnsubscribeRpcResponse :=
  match entity with
  | .channel _ _ _ megagroup =>
    actionOutcome.map fun _ =>
      ⟨true, if megagroup then .megagroup else .channel⟩
  | .channelForbidden _ _ =>
    actionOutcome.map fun _ => ⟨true, .channel⟩
  | .chat _ _ => actionOutcome.map fun _ => ⟨true, .chat⟩
  | .user _ _ _ _ => actionOutcome.map fun _ => ⟨true, .user⟩
  | .otherEntity cn => .error (.generic ("Unsupported peer type: " ++ cn))

/-- The `TelegramClientService.leave` (lines 159–234): the try block plus the
catch block that absorbs already-gone `RPCError`s into `left: true`,
computing `kind` from the entity's class, and rethrows everything else. -/
def leave (entity : Entity) (actionOutcome : Except TgError Unit) :
    Except TgError UnsubscribeRpcResponse :=
  match leaveTry entity actionOutcome with
  | .ok r => .ok r
  | .error e =>
    match e with
    | .rpc code =>
      if isAlreadyGoneCode code then
        .ok ⟨true,
          match entity with
          | .chat _ _ => .chat
          | .user _ _ _ _ => .user
          | _ => .channel⟩
      else .error (.rpc code)
    | .generic m => .error (.generic m)

-- ---- joinAndResolve / subscribe ------------------------------------------

/-- The record `joinAndResolve` returns
(`{tgId: string; username?: string; title?: string}`). -/
structure SubscriptionRecord where
  tgId : String
  username : Option String
  title : Option String
  deriving DecidableEq, Repr

/-- Network side effects `joinAndResolve` may issue. -/
inductive JoinAction where
  | joinChannel (id : Int)
  deriving DecidableEq, Repr

/-- The `[entity.firstName, entity.lastName].filter(Boolean).join(' ') ||
undefined` from the `Api.User` branch of `joinAndResolve`. -/
def userDisplayName (firstName lastName : Option String) : Option String :=
  let parts := ([firstName, lastName].filterMap id).filter (· ≠ "")
  let s := String.intercalate " " parts
  if s = "" then none else some s

/-- The `TelegramClientService.joinAndResolve` (lines 116–157). `resolution`
is the outcome of `getEntity` and `joinOutcome` what
`invoke(JoinChannel)` returns when it is reached. The second component
records which join calls were actually issued. -/
def joinAndResolve (resolution : Except TgError Entity)
    (joinOutcome : Except TgError Unit) :
    Except TgError SubscriptionRecord × List JoinAction :=
  match resolution with
  | .error e => (.error e, [])
  | .ok entity =>
    match entity with
    | .channel id username title _ =>
      (joinOutcome.map fun _ => ⟨toString id, username, some title⟩,
       [.joinChannel id])
    | .chat id title =>
      (.ok ⟨"chat:" ++ toString id, none, title⟩, [])
    | .user id username firstName lastName =>
      (.ok ⟨"user:" ++ toString id, username,
        userDisplayName firstName lastName⟩, [])
    | .channelForbidden id title =>
      (.ok ⟨toString id, none, title⟩, [])
    | .otherEntity cn =>
      (.error (.generic ("Unsupported peer type: " ++ cn)), [])

/-- The `SubscribeRpcResponse` from `types-to-synchronize.ts`. -/
structure SubscribeRpcResponse where
  ok : Bool
  channel : SubscriptionRecord
  deriving DecidableEq, Repr

/-- The `TelegramAppService.subscribeToChannel` (lines 162–166): await the
infra `joinAndResolve` call — propagating its failure — and wrap a
success as `{ok: true, channel}`. -/
def subscribeToChannel (infraResult : Except TgError SubscriptionRecord) :
    Except TgError SubscribeRpcResponse :=
  infraResult.map fun info => ⟨true, info⟩

-- ---- fetchHistory (TelegramAppService) -----------------------------------

/-- The `FetchPostsDto`: identifier plus optional paging fields. -/
structure FetchPostsDto where
  identifier : String
  offsetId : Option Int
  limit : Option Int
  deriving DecidableEq, Repr

/-- The fields of an `Api.Message` that `fetchHistory` reads. -/
structure ApiMessage where
  id : Int
  date : TgDate
  message : Option String
  deriving DecidableEq, Repr

/-- An element of the raw history page: a concrete `Api.Message` or any
other item (service message, empty message) that the
`m instanceof Api.Message` filter discards. -/
inductive RawHistoryItem where
  | message (m : ApiMessage)
  | messageService
  | messageEmpty
  deriving DecidableEq, Repr

/-- The `instanceof Api.Message` type guard used as the filter predicate. -/
def asApiMessage : RawHistoryItem → Option ApiMessage
  | .message m => some m
  | .messageService => none
  | .messageEmpty => none

/-- The `NormalizedMessage` from `fetch-posts.dto.ts`. -/
structure NormalizedMessage where
  id : Int
  date : String
  message : String
  deriving DecidableEq, Repr

/-- The parameters `fetchHistory` passes to
`TelegramClientService.getHistory`. -/
structure HistoryRequest where
  identifier : String
  limit : Int
  offsetId : Int
  deriving DecidableEq, Repr

/-- The raw GramJS page: `raw.messages` may be absent (`?? []`). -/
structure RawHistoryPage where
  messages : Option (List RawHistoryItem)
  deriving DecidableEq, Repr

/-- The `NormalizedMessage` built from one concrete message
(`{id, date: toIso…, message: m.message ?? ''}`). -/
def normalizeMessage (m : ApiMessage) : NormalizedMessage :=
  ⟨m.id, toIsoFromTelegramDate m.date, m.message.getD ""⟩

/-- The `TelegramAppService.fetchHistory` (`helper.ts` lines 179–208).
`page` is what `getHistory` returns for the computed request. Yields the
request actually issued together with the `{list, nextOffsetId}` reply. -/
def fetchHistoryApp (dto : FetchPostsDto) (page : RawHistoryPage) :
    HistoryRequest × List NormalizedMessage × Option Int :=
  let limit := dto.limit.getD 20
  let offsetId := dto.offsetId.getD 0
  let req : HistoryRequest := ⟨dto.identifier, limit, offsetId⟩
  let items := page.messages.getD []
  let real := items.filterMap asApiMessage
  let list := real.map normalizeMessage
  let nextOffsetId := (list.getLast?).map (·.id)
  (req, list, nextOffsetId)

-- ---- health ---------------------------------------------------------------

/-- The `TelegramClientService.health` (lines 284–291): `'ok'` when `getMe()`
returns, `'down'` when it throws; the error is swallowed. -/
def healthInfra (getMeOutcome : Except TgError Unit) : String :=
  match getMeOutcome with
  | .ok _ => "ok"
  | .error _ => "down"

/-- The `{status: 'ok' | 'down'}` reply of the health command. -/
structure HealthReply where
  status : String
  deriving DecidableEq, Repr

/-- The `TelegramAppService.health` (lines 213–216): wrap the infra status. -/
def healthApp (getMeOutcome : Except TgError Unit) : HealthReply :=
  ⟨healthInfra getMeOutcome⟩

-- ---- NewMessage listener registry ----------------------------------------

/-- State of `TelegramClientService`'s listener bookkeeping: the
`Map<handler, NewMessage>` (handlers named by ids, values are the filter
objects) and the transport-level registrations made via
`client.addEventHandler`. -/
structure ListenerState where
  newMessageHandlers : List (Nat × Nat)
  transportHandlers : List Nat
  deriving DecidableEq, Repr

/-- The `Map.prototype.get`: first (only, since keys are unique) entry. -/
def mapGet (k : Nat) (m : List (Nat × Nat)) : Option Nat :=
  (m.find? (fun p => p.1 == k)).map (·.2)

/-- The `Map.prototype.delete`: drop the entry with the given key. -/
def mapDelete (k : Nat) (m : List (Nat × Nat)) : List (Nat × Nat) :=
  m.filter (fun p => p.1 ≠ k)

/-- The `TelegramClientService.removeNewMessageListener` (lines 315–324):
look the handler up; if absent, return; otherwise delete only the map
entry — the transport registration is deliberately left in place. -/
def removeNewMessageListener (handler : Nat) (st : ListenerState) :
    ListenerState :=
  match mapGet handler st.newMessageHandlers with
  | none => st
  | some _ =>
    { st with newMessageHandlers := mapDelete handler st.newMessageHandlers }

-- ==========================================================================
-- Theorems
-- ==========================================================================

/-- C4: peer identity resolution is a pure, deterministic total function on
the peer union: the raw numeric id for a Channel peer, `chat:<id>` for a
LegacyChat peer, `user:<id>` for a User peer, and the literal `unknown`
for any other or absent peer; the same input always yields the same
canonical id. -/
theorem resolve_peer_characterization :
    (∀ i : Int, resolvePeerId (some (.channel i)) = toString i) ∧
    (∀ i : Int, resolvePeerId (some (.chat i)) = "chat:" ++ toString i) ∧
    (∀ i : Int, resolvePeerId (some (.user i)) = "user:" ++ toString i) ∧
    resolvePeerId (some .unknownKind) = "unknown" ∧
    resolvePeerId none = "unknown" ∧
    (∀ p q : Option PeerRef, p = q → resolvePeerId p = resolvePeerId q) :=
  ⟨fun _ => rfl, fun _ => rfl, fun _ => rfl, rfl, rfl,
   fun _ _ h => congrArg resolvePeerId h⟩

/-- Witness for C4: the determinism conjunct applied at a concrete peer. -/
theorem resolve_peer_characterization_witness :
    resolvePeerId (some (.channel 42)) = resolvePeerId (some (.channel 42)) :=
  resolve_peer_characterization.2.2.2.2.2
    (some (.channel 42)) (some (.channel 42)) rfl

/-- C6: `health()` never throws — it is a total function whose status is
`"ok"` exactly when the `getMe` round-trip completed without error and
`"down"` exactly when it raised any error. -/
theorem health_status_total (o : Except TgError Unit) :
    ((healthApp o).status = "ok" ∨ (healthApp o).status = "down") ∧
    ((healthApp o).status = "ok" ↔ o = .ok ()) ∧
    ((healthApp o).status = "down" ↔ ∃ e, o = .error e) := by
  cases o with
  | ok u => cases u; simp [healthApp, healthInfra]
  | error e => simp [healthApp, healthInfra]

/-- C7: when peer resolution fails, `subscribe` returns that resolution
failure to the command caller and no join action is attempted; when the
resolved entity's kind is outside the recognized set, `joinAndResolve`
fails with the unsupported-peer-kind error instead of returning a
record. -/
theorem subscribe_failure_propagation (e : TgError)
    (jo : Except TgError Unit) :
    joinAndResolve (.error e) jo = (.error e, []) ∧
    (∀ cn, joinAndResolve (.ok (.otherEntity cn)) jo =
      (.error (.generic ("Unsupported peer type: " ++ cn)), [])) ∧
    subscribeToChannel (joinAndResolve (.error e) jo).1 = .error e :=
  ⟨rfl, fun _ => rfl, rfl⟩

/-- C9: a peer that resolves to `Api.ChannelForbidden` is a recognized
kind for `joinAndResolve`: it returns the raw numeric id as `tgId` and
the title, with no username, issues no join call, and does not raise the
unsupported-peer-kind error. -/
theorem joinAndResolve_channel_forbidden (id : Int) (title : Option String)
    (jo : Except TgError Unit) :
    joinAndResolve (.ok (.channelForbidden id title)) jo =
      (.ok ⟨toString id, none, title⟩, []) :=
  rfl

/-- Each of the five already-gone codes is absorbed by the catch test. -/
lemma alreadyGone_of_mem (code : String) (hc : code ∈ alreadyGoneCodes) :
    isAlreadyGoneCode code = true := by
  simp only [alreadyGoneCodes, List.mem_cons, List.not_mem_nil,
    or_false] at hc
  rcases hc with h | h | h | h | h <;> subst h <;> decide

/-- C2: for every recognized peer, `leave` returns `{left: true, kind}`
when the underlying leave action succeeds or fails with one of exactly
the five already-gone error conditions (so a second `leave` on an
already-gone peer also returns `left: true`), and every other error —
an RPC error containing none of the five conditions, or a non-RPC
error — is propagated to the caller unchanged. -/
theorem leave_absorbed_error_policy (entity : Entity)
    (hrec : isRecognizedEntity entity = true) :
    (∃ k, leave entity (.ok ()) = .ok ⟨true, k⟩) ∧
    (∀ code ∈ alreadyGoneCodes,
      ∃ k, leave entity (.error (.rpc code)) = .ok ⟨true, k⟩) ∧
    (∀ code, isAlreadyGoneCode code = false →
      leave entity (.error (.rpc code)) = .error (.rpc code)) ∧
    (∀ m, leave entity (.error (.generic m)) = .error (.generic m)) := by
  cases entity with
  | otherEntity cn => simp [isRecognizedEntity] at hrec
  | channel id un t mg =>
    refine ⟨⟨if mg then .megagroup else .channel, rfl⟩, ?_, ?_, fun m => rfl⟩
    · intro code hc
      exact ⟨.channel, by simp [leave, leaveTry, Except.map, alreadyGone_of_mem code hc]⟩
    · intro code hno
      simp [leave, leaveTry, Except.map, hno]
  | chat id t =>
    refine ⟨⟨.chat, rfl⟩, ?_, ?_, fun m => rfl⟩
    · intro code hc
      exact ⟨.chat, by simp [leave, leaveTry, Except.map, alreadyGone_of_mem code hc]⟩
    · intro code hno
      simp [leave, leaveTry, Except.map, hno]
  | user id un fn ln =>
    refine ⟨⟨.user, rfl⟩, ?_, ?_, fun m => rfl⟩
    · intro code hc
      exact ⟨.user, by simp [leave, leaveTry, Except.map, alreadyGone_of_mem code hc]⟩
    · intro code hno
      simp [leave, leaveTry, Except.map, hno]
  | channelForbidden id t =>
    refine ⟨⟨.channel, rfl⟩, ?_, ?_, fun m => rfl⟩
    · intro code hc
      exact ⟨.channel, by simp [leave, leaveTry, Except.map, alreadyGone_of_mem code hc]⟩
    · intro code hno
      simp [leave, leaveTry, Except.map, hno]

/-- Witness for C2: the policy applied to a concrete channel — success,
an absorbed `USER_NOT_PARTICIPANT` failure, and a propagated
`FLOOD_WAIT_42` failure. -/
theorem leave_absorbed_error_policy_witness :
    (∃ k, leave (.channel 7 none "c" false) (.ok ()) = .ok ⟨true, k⟩) ∧
    (∃ k, leave (.channel 7 none "c" false)
      (.error (.rpc "USER_NOT_PARTICIPANT")) = .ok ⟨true, k⟩) ∧
    leave (.channel 7 none "c" false) (.error (.rpc "FLOOD_WAIT_42")) =
      .error (.rpc "FLOOD_WAIT_42") := by
  have h := leave_absorbed_error_policy (.channel 7 none "c" false) rfl
  exact ⟨h.1, h.2.1 "USER_NOT_PARTICIPANT" (by decide),
    h.2.2.1 "FLOOD_WAIT_42" (by decide)⟩

/-- C8: in the absorbed-error branch of `leave` the returned kind is
computed only from the entity's class — `chat` for a legacy chat, `user`
for a user, `channel` for everything else — so a megagroup whose leave
fails with an already-gone error reports `channel`, even though the
success branch reports `megagroup` for the same entity. -/
theorem leave_absorbed_kind_from_entity_class :
    (∀ (id : Int) (un : Option String) (t : String) (code : String),
      isAlreadyGoneCode code = true →
      leave (.channel id un t true) (.error (.rpc code)) =
        .ok ⟨true, .channel⟩) ∧
    (∀ (id : Int) (un : Option String) (t : String),
      leave (.channel id un t true) (.ok ()) = .ok ⟨true, .megagroup⟩) ∧
    (∀ (id : Int) (t : Option String) (code : String),
      isAlreadyGoneCode code = true →
      leave (.chat id t) (.error (.rpc code)) = .ok ⟨true, .chat⟩) ∧
    (∀ (id : Int) (un fn ln : Option String) (code : String),
      isAlreadyGoneCode code = true →
      leave (.user id un fn ln) (.error (.rpc code)) = .ok ⟨true, .user⟩) ∧
    (∀ (id : Int) (t : Option String) (code : String),
      isAlreadyGoneCode code = true →
      leave (.channelForbidden id t) (.error (.rpc code)) =
        .ok ⟨true, .channel⟩) := by
  refine ⟨?_, fun id un t => rfl, ?_, ?_, ?_⟩ <;>
    intros <;> simp_all [leave, leaveTry, Except.map]

/-- Witness for C8: a megagroup with an absorbed already-gone error is
reported as kind `channel`, while its successful leave reports
`megagroup`. -/
theorem leave_absorbed_kind_witness :
    leave (.channel 9 none "g" true) (.error (.rpc "CHANNEL_PRIVATE")) =
      .ok ⟨true, .channel⟩ ∧
    leave (.channel 9 none "g" true) (.ok ()) = .ok ⟨true, .megagroup⟩ ∧
    leave (.chat 3 none) (.error (.rpc "CHAT_ID_INVALID")) =
      .ok ⟨true, .chat⟩ ∧
    leave (.user 4 none none none) (.error (.rpc "PEER_ID_INVALID")) =
      .ok ⟨true, .user⟩ ∧
    leave (.channelForbidden 5 none) (.error (.rpc "CHANNEL_INVALID")) =
      .ok ⟨true, .channel⟩ := by
  have h := leave_absorbed_kind_from_entity_class
  exact ⟨h.1 9 none "g" "CHANNEL_PRIVATE" (by decide),
    h.2.1 9 none "g",
    h.2.2.1 3 none "CHAT_ID_INVALID" (by decide),
    h.2.2.2.1 4 none none none "PEER_ID_INVALID" (by decide),
    h.2.2.2.2 5 none "CHANNEL_INVALID" (by decide)⟩

/-- Deleting a key from the handler map makes lookups of that key fail. -/
lemma mapGet_mapDelete_self (k : Nat) (m : List (Nat × Nat)) :
    mapGet k (mapDelete k m) = none := by
  have hf : (mapDelete k m).find? (fun p => p.1 == k) = none := by
    rw [List.find?_eq_none]
    intro x hx
    rw [mapDelete, List.mem_filter] at hx
    simpa using hx.2
  simp [mapGet, hf]

/-- The `mapGet` on a cons cell: the head entry answers iff its key matches. -/
lemma mapGet_cons (k : Nat) (p : Nat × Nat) (t : List (Nat × Nat)) :
    mapGet k (p :: t) = if p.1 = k then some p.2 else mapGet k t := by
  by_cases h : p.1 = k <;> simp [mapGet, List.find?_cons, h]

/-- The `mapDelete` on a cons cell keeps the head iff its key differs. -/
lemma mapDelete_cons (h : Nat) (p : Nat × Nat) (t : List (Nat × Nat)) :
    mapDelete h (p :: t) =
      if p.1 = h then mapDelete h t else p :: mapDelete h t := by
  by_cases hp : p.1 = h <;> simp [mapDelete, List.filter_cons, hp]

/-- Deleting one key from the handler map leaves every other key's entry
untouched. -/
lemma mapGet_mapDelete_other (k h : Nat) (hne : k ≠ h)
    (m : List (Nat × Nat)) : mapGet k (mapDelete h m) = mapGet k m := by
  induction m with
  | nil => rfl
  | cons p t ih =>
    rw [mapDelete_cons]
    by_cases hp : p.1 = h
    · rw [if_pos hp, ih, mapGet_cons, if_neg (by omega)]
    · rw [if_neg hp, mapGet_cons, mapGet_cons, ih]

/-- C10: `removeNewMessageListener` on an unregistered handler returns
with all state unchanged; on a registered handler it removes only that
handler's map entry — other entries and the transport-level registrations
are untouched. -/
theorem remove_listener_frame (h : Nat) (st : ListenerState) :
    (mapGet h st.newMessageHandlers = none →
      removeNewMessageListener h st = st) ∧
    (∀ f, mapGet h st.newMessageHandlers = some f →
      (removeNewMessageListener h st).transportHandlers =
          st.transportHandlers ∧
        mapGet h (removeNewMessageListener h st).newMessageHandlers =
          none ∧
        (∀ k, k ≠ h →
          mapGet k (removeNewMessageListener h st).newMessageHandlers =
            mapGet k st.newMessageHandlers)) := by
  constructor
  · intro hnone
    simp [removeNewMessageListener, hnone]
  · intro f hsome
    have hred : removeNewMessageListener h st =
        { st with
          newMessageHandlers := mapDelete h st.newMessageHandlers } := by
      simp only [removeNewMessageListener, hsome]
    rw [hred]
    exact ⟨rfl, mapGet_mapDelete_self h _,
      fun k hk => mapGet_mapDelete_other k h hk _⟩

/-- Witness for C10: removing the unregistered handler 1 is a no-op;
removing the registered handler 2 keeps the transport registrations and
handler 3's entry while dropping handler 2's. -/
theorem remove_listener_frame_witness :
    removeNewMessageListener 1 ⟨[(2, 10)], [2]⟩ = ⟨[(2, 10)], [2]⟩ ∧
    (removeNewMessageListener 2
        ⟨[(2, 10), (3, 11)], [2, 3]⟩).transportHandlers = [2, 3] ∧
    mapGet 2 (removeNewMessageListener 2
        ⟨[(2, 10), (3, 11)], [2, 3]⟩).newMessageHandlers = none ∧
    mapGet 3 (removeNewMessageListener 2
        ⟨[(2, 10), (3, 11)], [2, 3]⟩).newMessageHandlers =
      mapGet 3 [(2, 10), (3, 11)] := by
  have h1 := (remove_listener_frame 1 ⟨[(2, 10)], [2]⟩).1 (by decide)
  have h2 := (remove_listener_frame 2 ⟨[(2, 10), (3, 11)], [2, 3]⟩).2
    10 (by decide)
  exact ⟨h1, h2.1, h2.2.1, h2.2.2 3 (by decide)⟩

/-- A unix-seconds date lands on a whole second: the millisecond field of
its day offset is zero. -/
lemma num_date_msec_zero (d : Int) :
    ((d * 1000).emod 86400000).toNat % 1000 = 0 := by
  have key : (d * 1000) % 86400000 = 1000 * (d % 86400) := by
    have : (d * 1000) % 86400000 = 1000 * d % (1000 * 86400) := by
      ring_nf
    rw [this, Int.mul_emod_mul_of_pos d 86400 (by norm_num)]
  have hx0 : (0 : Int) ≤ (d * 1000) % 86400000 :=
    Int.emod_nonneg _ (by norm_num)
  have hdvd : (1000 : Int) ∣ (d * 1000) % 86400000 := ⟨d % 86400, key⟩
  have hnat : (1000 : Nat) ∣ ((d * 1000) % 86400000).toNat := by
    have := hdvd
    rw [← Int.toNat_of_nonneg hx0] at this
    exact_mod_cast this
  obtain ⟨c, hc⟩ := hnat
  show (d * 1000 % 86400000).toNat % 1000 = 0
  rw [hc]
  exact Nat.mul_mod_right 1000 c

/-- When the millisecond field is zero the rendered instant ends in
`.000Z`. -/
lemma toISOString_whole_second (ms : Int)
    (hm : (ms.emod 86400000).toNat % 1000 = 0) :
    ∃ s, toISOString ms = s ++ ".000Z" := by
  simp only [toISOString]
  rw [hm]
  rw [show zeroPad 3 0 = ("000" : String) from rfl]
  rw [String.append_assoc, String.append_assoc]
  rw [show (("." : String) ++ ("000" ++ "Z")) = ".000Z" from rfl]
  exact ⟨_, rfl⟩

/-- C3: `normalize` is total: a numeric date is rendered as the ISO
string of that many whole seconds (millisecond field `000`), a
structured `Date` passes through to its ISO string, an absent date gives
exactly `1970-01-01T00:00:00.000Z`, an absent message id gives `-1`, and
absent text gives the empty string. -/
theorem normalize_totality_and_defaults :
    toIsoFromTelegramDate .absent = "1970-01-01T00:00:00.000Z" ∧
    (∀ d : Int, toIsoFromTelegramDate (.num d) = toISOString (d * 1000)) ∧
    (∀ d : Int, ∃ s, toIsoFromTelegramDate (.num d) = s ++ ".000Z") ∧
    (∀ ms : Int, toIsoFromTelegramDate (.dateObj ms) = toISOString ms) ∧
    (∀ ev : RawEvent, ev.id = none → (normalizeEvent ev).messageId = -1) ∧
    (∀ ev : RawEvent, ev.message = none → (normalizeEvent ev).text = "") ∧
    (∀ ev : RawEvent, ev.date = .absent →
      (normalizeEvent ev).date = "1970-01-01T00:00:00.000Z") := by
  refine ⟨by decide, fun d => rfl,
    fun d => toISOString_whole_second _ (num_date_msec_zero d),
    fun ms => rfl, ?_, ?_, ?_⟩
  · intro ev h
    simp [normalizeEvent, h]
  · intro ev h
    simp [normalizeEvent, h]
  · intro ev h
    simp only [normalizeEvent, h]
    decide

/-- Witness for C3: the defaults evaluated on a concrete raw event with
absent id, text, and date, plus a whole-second suffix at the spec's
sample timestamp. -/
theorem normalize_totality_witness :
    (normalizeEvent ⟨some (.channel 42), none, none, .absent⟩).messageId
        = -1 ∧
    (normalizeEvent ⟨some (.channel 42), none, none, .absent⟩).text = "" ∧
    (normalizeEvent ⟨some (.channel 42), none, none, .absent⟩).date =
      "1970-01-01T00:00:00.000Z" ∧
    ∃ s, toIsoFromTelegramDate (.num 1700000000) = s ++ ".000Z" := by
  have h := normalize_totality_and_defaults
  exact ⟨h.2.2.2.2.1 _ rfl, h.2.2.2.2.2.1 _ rfl, h.2.2.2.2.2.2 _ rfl,
    h.2.2.1 1700000000⟩

/-- The `instanceof` filter keeps exactly the concrete messages. -/
lemma length_filterMap_asApiMessage (l : List RawHistoryItem) :
    (l.filterMap asApiMessage).length =
      l.countP (fun it => (asApiMessage it).isSome) := by
  induction l with
  | nil => rfl
  | cons a t ih =>
    cases a <;>
      simp [List.filterMap_cons, List.countP_cons, asApiMessage, ih]

/-- C5: `fetchPosts` issues the history request with defaults `limit=20`
and `offsetId=0` when those fields are absent, keeps only concrete
(non-service) messages, normalizes each kept message to
`{id, date, message}` with absent text mapped to the empty string, and
returns `nextOffsetId` equal to the id of the last returned item, absent
exactly when the returned list is empty. -/
theorem fetchPosts_normalization (dto : FetchPostsDto)
    (page : RawHistoryPage) :
    (fetchHistoryApp dto page).1 =
      ⟨dto.identifier, dto.limit.getD 20, dto.offsetId.getD 0⟩ ∧
    (dto.limit = none → (fetchHistoryApp dto page).1.limit = 20) ∧
    (dto.offsetId = none → (fetchHistoryApp dto page).1.offsetId = 0) ∧
    (fetchHistoryApp dto page).2.1 =
      ((page.messages.getD []).filterMap asApiMessage).map
        normalizeMessage ∧
    (fetchHistoryApp dto page).2.1.length =
      (page.messages.getD []).countP
        (fun it => (asApiMessage it).isSome) ∧
    (∀ m : ApiMessage, m.message = none →
      (normalizeMessage m).message = "") ∧
    ((fetchHistoryApp dto page).2.2 = none ↔
      (fetchHistoryApp dto page).2.1 = []) ∧
    (∀ (l : List NormalizedMessage) (x : NormalizedMessage),
      (fetchHistoryApp dto page).2.1 = l ++ [x] →
      (fetchHistoryApp dto page).2.2 = some x.id) := by
  refine ⟨rfl, ?_, ?_, rfl, ?_, ?_, ?_, ?_⟩
  · intro h
    simp [fetchHistoryApp, h]
  · intro h
    simp [fetchHistoryApp, h]
  · simpa [fetchHistoryApp, List.length_map] using
      length_filterMap_asApiMessage (page.messages.getD [])
  · intro m h
    simp [normalizeMessage, h]
  · show (((page.messages.getD []).filterMap asApiMessage).map
        normalizeMessage).getLast?.map (·.id) = none ↔ _
    rw [Option.map_eq_none', List.getLast?_eq_none_iff]
    exact Iff.rfl
  · intro l x hlx
    show (((page.messages.getD []).filterMap asApiMessage).map
        normalizeMessage).getLast?.map (·.id) = some x.id
    have : (((page.messages.getD []).filterMap asApiMessage).map
        normalizeMessage) = l ++ [x] := hlx
    rw [this, List.getLast?_concat]
    rfl

/-- Witness for C5: a concrete page with a service message, a message
with text, and a message with absent text; absent `limit`/`offsetId`. -/
theorem fetchPosts_normalization_witness :
    (fetchHistoryApp ⟨"chan", none, none⟩
        ⟨some [.messageService, .message ⟨5, .absent, some "hi"⟩,
          .message ⟨3, .absent, none⟩]⟩).1.limit = 20 ∧
    (fetchHistoryApp ⟨"chan", none, none⟩
        ⟨some [.messageService, .message ⟨5, .absent, some "hi"⟩,
          .message ⟨3, .absent, none⟩]⟩).1.offsetId = 0 ∧
    (normalizeMessage ⟨3, .absent, none⟩).message = "" ∧
    (fetchHistoryApp ⟨"chan", none, none⟩
        ⟨some [.messageService, .message ⟨5, .absent, some "hi"⟩,
          .message ⟨3, .absent, none⟩]⟩).2.2 = some 3 := by
  have h := fetchPosts_normalization ⟨"chan", none, none⟩
    ⟨some [.messageService, .message ⟨5, .absent, some "hi"⟩,
      .message ⟨3, .absent, none⟩]⟩
  refine ⟨h.2.1 rfl, h.2.2.1 rfl, h.2.2.2.2.2.1 ⟨3, .absent, none⟩ rfl, ?_⟩
  exact h.2.2.2.2.2.2.2 [normalizeMessage ⟨5, .absent, some "hi"⟩]
    (normalizeMessage ⟨3, .absent, none⟩) rfl

/-- The `handleNewMessage` written through `dedupKey`/`normalizeEvent` (the
key it computes is the event's dedup key). -/
lemma handle_eq (st : AppState) (ev : RawEvent) :
    handleNewMessage st ev =
      if dedupKey ev ∈ st.seen then st
      else
        { seen := setAdd (dedupKey ev) st.seen,
          published := st.published ++ [normalizeEvent ev] } := rfl

/-- The published payload of an event carries that event's dedup key. -/
lemma payloadKey_normalize (ev : RawEvent) :
    payloadKey (normalizeEvent ev) = dedupKey ev := rfl

/-- Invariant: every key in the dedup store accounts for exactly one
published payload, and unseen keys for none. One pipeline step preserves
it. -/
lemma handle_invariant (st : AppState) (ev : RawEvent)
    (hinv : ∀ k, keyCount k st.published = if k ∈ st.seen then 1 else 0) :
    ∀ k, keyCount k (handleNewMessage st ev).published =
      if k ∈ (handleNewMessage st ev).seen then 1 else 0 := by
  intro k
  rw [handle_eq]
  by_cases hseen : dedupKey ev ∈ st.seen
  · rw [if_pos hseen]
    exact hinv k
  · rw [if_neg hseen]
    have hcount : keyCount k (st.published ++ [normalizeEvent ev]) =
        keyCount k st.published +
          (if dedupKey ev = k then 1 else 0) := by
      simp [keyCount, List.countP_append, List.countP_cons,
        payloadKey_normalize]
    simp only [hcount, setAdd, if_neg hseen]
    by_cases hk : k = dedupKey ev
    · subst hk
      rw [hinv (dedupKey ev), if_neg hseen, if_pos rfl,
        if_pos (List.mem_cons_self (dedupKey ev) _)]
    · rw [if_neg (fun e => hk e.symm), hinv k]
      have hmem : (k ∈ dedupKey ev :: st.seen) = (k ∈ st.seen) := by
        simp [List.mem_cons, fun e => hk e]
      by_cases hks : k ∈ st.seen
      · rw [if_pos hks, if_pos (List.mem_cons_of_mem _ hks)]
      · rw [if_neg hks, if_neg (by
          intro hc
          rcases List.mem_cons.mp hc with h | h
          · exact hk h
          · exact hks h)]

/-- The invariant holds after any run of the pipeline from a state that
satisfies it. -/
lemma runPipeline_invariant (evs : List RawEvent) (st : AppState)
    (hinv : ∀ k, keyCount k st.published = if k ∈ st.seen then 1 else 0) :
    ∀ k, keyCount k (runPipeline st evs).published =
      if k ∈ (runPipeline st evs).seen then 1 else 0 := by
  induction evs generalizing st with
  | nil => exact hinv
  | cons ev t ih => exact ih (handleNewMessage st ev) (handle_invariant st ev hinv)

/-- One pipeline step records exactly the processed event's key. -/
lemma handle_seen_iff (st : AppState) (ev : RawEvent) (k : String) :
    k ∈ (handleNewMessage st ev).seen ↔
      k ∈ st.seen ∨ dedupKey ev = k := by
  rw [handle_eq]
  by_cases hseen : dedupKey ev ∈ st.seen
  · rw [if_pos hseen]
    exact ⟨Or.inl, fun h => h.elim id (fun e => e ▸ hseen)⟩
  · rw [if_neg hseen]
    show k ∈ setAdd (dedupKey ev) st.seen ↔ _
    rw [setAdd, if_neg hseen, List.mem_cons]
    constructor
    · rintro (h | h)
      · exact Or.inr h.symm
      · exact Or.inl h
    · rintro (h | h)
      · exact Or.inr h
      · exact Or.inl h.symm

/-- The dedup store after a run holds exactly the keys of the events that
arrived (plus whatever it already held). -/
lemma runPipeline_seen (evs : List RawEvent) (st : AppState) (k : String) :
    k ∈ (runPipeline st evs).seen ↔
      k ∈ st.seen ∨ ∃ ev ∈ evs, dedupKey ev = k := by
  induction evs generalizing st with
  | nil => simp [runPipeline]
  | cons ev t ih =>
    show k ∈ (runPipeline (handleNewMessage st ev) t).seen ↔ _
    rw [ih, handle_seen_iff]
    simp only [List.mem_cons]
    constructor
    · rintro ((h | h) | ⟨e, he, hk⟩)
      · exact Or.inl h
      · exact Or.inr ⟨ev, Or.inl rfl, h⟩
      · exact Or.inr ⟨e, Or.inr he, hk⟩
    · rintro (h | ⟨e, (he | he), hk⟩)
      · exact Or.inl (Or.inl h)
      · exact Or.inl (Or.inr (he ▸ hk))
      · exact Or.inr ⟨e, he, hk⟩

/-- C1: along any sequence of inbound raw events, each dedup key causes
at most one publish — exactly one when some event carries it, none
otherwise; a processed key is recorded in the store, and an event whose
key is already recorded leaves the state unchanged (no publish, no
error). -/
theorem ingestion_publish_at_most_once :
    (∀ (evs : List RawEvent) (k : String),
      keyCount k (runPipeline initState evs).published =
        if ∃ ev ∈ evs, dedupKey ev = k then 1 else 0) ∧
    (∀ (evs : List RawEvent) (k : String),
      k ∈ (runPipeline initState evs).seen ↔
        ∃ ev ∈ evs, dedupKey ev = k) ∧
    (∀ (st : AppState) (ev : RawEvent), dedupKey ev ∈ st.seen →
      handleNewMessage st ev = st) := by
  have hseen : ∀ (evs : List RawEvent) (k : String),
      k ∈ (runPipeline initState evs).seen ↔
        ∃ ev ∈ evs, dedupKey ev = k := by
    intro evs k
    rw [runPipeline_seen]
    simp [initState]
  refine ⟨?_, hseen, ?_⟩
  · intro evs k
    rw [runPipeline_invariant evs initState
      (by intro k; simp [initState, keyCount])]
    by_cases h : ∃ ev ∈ evs, dedupKey ev = k
    · rw [if_pos h, if_pos ((hseen evs k).mpr h)]
    · rw [if_neg h, if_neg (fun hc => h ((hseen evs k).mp hc))]
  · intro st ev hs
    rw [handle_eq, if_pos hs]

/-- Witness for C1: the spec's sample event delivered twice publishes
exactly once, and a step on an already-recorded key is the identity. -/
theorem ingestion_publish_witness :
    keyCount "42:7"
      (runPipeline initState
        [⟨some (.channel 42), some 7, some "hi", .num 1700000000⟩,
         ⟨some (.channel 42), some 7, some "hi", .num 1700000000⟩]).published
      = 1 ∧
    handleNewMessage ⟨["42:7"], []⟩
        ⟨some (.channel 42), some 7, some "hi", .num 1700000000⟩ =
      ⟨["42:7"], []⟩ := by
  constructor
  · rw [ingestion_publish_at_most_once.1
      [⟨some (.channel 42), some 7, some "hi", .num 1700000000⟩,
       ⟨some (.channel 42), some 7, some "hi", .num 1700000000⟩] "42:7"]
    rw [if_pos ⟨⟨some (.channel 42), some 7, some "hi", .num 1700000000⟩,
      List.mem_cons_self _ _, by decide⟩]
  · exact ingestion_publish_at_most_once.2.2 ⟨["42:7"], []⟩
      ⟨some (.channel 42), some 7, some "hi", .num 1700000000⟩ (by decide)

end TgSpec
